import Mathlib

/-!
Shallow embedding of the authenticated API client, session handling and
navigation guard of the FastapiCloud front end.

The browser-visible session state is a single localStorage slot keyed by
a fixed name; it is modelled as an `Option String` (`none` = key absent).
The axios request/response interceptors, the apiClient verbs, the
login/logout flows of the user API module, and the router guard are
translated function by function from the source.
-/

set_option autoImplicit false

namespace FastapiCloud

/-- The localStorage token slot: `none` models an absent key. -/
def getItem (store : Option String) : Option String := store

/-- localStorage.removeItem: the slot is empty afterwards. -/
def removeItem (_store : Option String) : Option String := none

/-- localStorage.setItem: the slot holds the new value afterwards. -/
def setItem (_store : Option String) (v : String) : Option String := some v

/-- JavaScript truthiness of a `string | null` value: truthy iff present
and non-empty.  This is the test both `if (token)` in the request
interceptor and the double negation in the router guard perform. -/
def strTruthy (s : Option String) : Bool :=
  match s with
  | some t => t != ""
  | none => false

/-- isAuthenticated from src/web/src/api/user.ts: a strict comparison of
the stored slot against null, so an empty string still counts. -/
def isAuthenticated (store : Option String) : Bool :=
  decide (getItem store ≠ none)

/-- The headers of an outgoing request: the axios instance always sets a
content type; the request interceptor may add an authorization value. -/
structure Headers where
  contentType : String
  authorization : Option String
  deriving DecidableEq, Repr

/-- The headers the axios instance is created with. -/
def defaultHeaders : Headers :=
  { contentType := "application/json", authorization := none }

/-- The request interceptor: reads the token slot and, when the value is
truthy, sets the Authorization header to a Bearer value. -/
def requestInterceptor (store : Option String) (config : Headers) : Headers :=
  match getItem store with
  | some token =>
      if token != "" then
        { config with authorization := some ("Bearer " ++ token) }
      else config
  | none => config

/-- The four verbs the apiClient object exposes. -/
inductive Verb
  | get
  | post
  | put
  | delete
  deriving DecidableEq, Repr

/-- Headers attached to a dispatch of the given verb: every verb goes
through the same axios instance, hence the same request interceptor. -/
def outgoingHeaders (_v : Verb) (store : Option String) : Headers :=
  requestInterceptor store defaultHeaders

/-- The uniform response body shape of the backend. -/
structure BaseResponse (T : Type) where
  code : Int
  msg : String
  data : T
  deriving DecidableEq, Repr

/-- An axios resolution: transport status plus the parsed body. -/
structure AxiosResponse (T : Type) where
  status : Nat
  data : BaseResponse T
  deriving DecidableEq, Repr

/-- The error.response field of an axios rejection: the status and the
body msg field (`none` models an absent or falsy msg). -/
structure ErrResponse where
  status : Nat
  dataMsg : Option String
  deriving DecidableEq, Repr

/-- An axios rejection: `response` is present when the server answered
with a non-2xx status; `request` is true when the request went out but no
response arrived; otherwise the error arose before dispatch and carries
only its own `message`. -/
structure AxiosError where
  response : Option ErrResponse
  request : Bool
  message : String
  deriving DecidableEq, Repr

/-- The outcome the transport hands to the interceptor chain. -/
inductive Transport (T : Type)
  | resolved (r : AxiosResponse T)
  | rejected (e : AxiosError)

/-- Client-visible mutable state: the token slot and the list of
window.location.href assignments performed so far. -/
structure ClientState where
  token : Option String
  navigations : List String
  deriving DecidableEq, Repr

/-- Which branch of the response error interceptor ran.  The constructor
names follow the taxonomy of the spec; each corresponds to one case of
the switch on the status (or to one branch of the response/request test),
and `UnknownStatus` is the default case of the switch. -/
inductive Cause
  | BadRequest
  | Unauthorized
  | Forbidden
  | NotFound
  | ServerError
  | UnknownStatus
  | NetworkError
  | ConfigError
  deriving DecidableEq, Repr

/-- JavaScript `m || fallback` on an optional string: the fallback is
used when the field is absent or empty. -/
def msgOr (m : Option String) (fallback : String) : String :=
  match m with
  | some s => if s != "" then s else fallback
  | none => fallback

/-- Result of the response error interceptor: the state after its side
effects, the branch taken, and the message of the Error it rejects with. -/
structure ErrorHandling where
  finalState : ClientState
  cause : Cause
  errorMessage : String
  deriving DecidableEq, Repr

/-- The response error interceptor of src/utils/request.ts.  On a 401 it
removes the token and assigns window.location.href to the login path; in
every case it ends in Promise.reject(new Error(errorMessage)). -/
def responseErrorInterceptor (st : ClientState) (e : AxiosError) : ErrorHandling :=
  match e.response with
  | some r =>
      if r.status = 400 then
        { finalState := st, cause := Cause.BadRequest,
          errorMessage := msgOr r.dataMsg "请求参数错误" }
      else if r.status = 401 then
        { finalState := { token := removeItem st.token,
                          navigations := st.navigations ++ ["/login"] },
          cause := Cause.Unauthorized,
          errorMessage := msgOr r.dataMsg "未授权，请重新登录" }
      else if r.status = 403 then
        { finalState := st, cause := Cause.Forbidden,
          errorMessage := msgOr r.dataMsg "没有权限访问该资源" }
      else if r.status = 404 then
        { finalState := st, cause := Cause.NotFound,
          errorMessage := msgOr r.dataMsg "请求的资源不存在" }
      else if r.status = 500 then
        { finalState := st, cause := Cause.ServerError,
          errorMessage := msgOr r.dataMsg "服务器内部错误" }
      else
        { finalState := st, cause := Cause.UnknownStatus,
          errorMessage := msgOr r.dataMsg ("请求失败 (" ++ toString r.status ++ ")") }
  | none =>
      if e.request then
        { finalState := st, cause := Cause.NetworkError,
          errorMessage := "网络错误，请检查网络连接" }
      else
        { finalState := st, cause := Cause.ConfigError,
          errorMessage := e.message }

/-- The response success interceptor is the identity on the response. -/
def responseSuccessInterceptor (T : Type) (r : AxiosResponse T) : AxiosResponse T := r

/-- One axios dispatch through the interceptor chain: a resolution passes
through the success interceptor; a rejection runs the error interceptor
and rejects with its Error message. -/
def axiosDispatch (T : Type) (st : ClientState) (t : Transport T) :
    ClientState × Except String (AxiosResponse T) :=
  match t with
  | Transport.resolved r => (st, Except.ok (responseSuccessInterceptor T r))
  | Transport.rejected e =>
      match responseErrorInterceptor st e with
      | h => (h.finalState, Except.error h.errorMessage)

/-- An apiClient verb: awaits the axios call and returns response.data,
the full BaseResponse envelope; a rejection propagates to the caller.
All four verbs share this body. -/
def apiClientVerb (T : Type) (_v : Verb) (st : ClientState) (t : Transport T) :
    ClientState × Except String (BaseResponse T) :=
  match axiosDispatch T st t with
  | (st2, Except.ok r) => (st2, Except.ok r.data)
  | (st2, Except.error m) => (st2, Except.error m)

/-- The login form data. -/
structure LoginRequest where
  username : String
  password : String
  deriving DecidableEq, Repr

/-- The payload of a login response; `access_token` is optional because
the code tests it for truthiness before storing it. -/
structure LoginData where
  access_token : Option String
  token_type : String
  expires_in : Nat
  deriving DecidableEq, Repr

/-- login from src/web/src/api/user.ts: posts the form data, and when the
resolved body carries a truthy data.access_token stores it in the token
slot; the envelope is returned unchanged either way. -/
def login (_params : LoginRequest) (st : ClientState)
    (t : Transport (Option LoginData)) :
    ClientState × Except String (BaseResponse (Option LoginData)) :=
  match apiClientVerb (Option LoginData) Verb.post st t with
  | (st2, Except.ok body) =>
      match body.data with
      | some ld =>
          match ld.access_token with
          | some tok =>
              if tok != "" then
                ({ st2 with token := setItem st2.token tok }, Except.ok body)
              else (st2, Except.ok body)
          | none => (st2, Except.ok body)
      | none => (st2, Except.ok body)
  | (st2, Except.error m) => (st2, Except.error m)

/-- logout from src/web/src/api/user.ts: posts to the logout endpoint and,
in a finally block, removes the token whatever the outcome was; the
outcome itself (resolution or rejection) is passed through. -/
def logout (st : ClientState) (t : Transport Unit) :
    ClientState × Except String (BaseResponse Unit) :=
  match apiClientVerb Unit Verb.post st t with
  | (st2, r) => ({ st2 with token := removeItem st2.token }, r)

/-- The part of a navigation target the guard looks at: the merged
requiresAuth meta flag and the target path. -/
structure RouteTarget where
  requiresAuth : Bool
  path : String
  deriving DecidableEq, Repr

/-- What the guard passes to next(). -/
inductive NavDecision
  | redirectLogin
  | redirectDashboard
  | proceed
  deriving DecidableEq, Repr

/-- router.beforeEach from the router module: derives authentication from
the truthiness of the stored token on each call, then picks among the
three next() calls. -/
def beforeEach (store : Option String) (dest : RouteTarget) : NavDecision :=
  let isAuth := strTruthy (getItem store)
  if dest.requiresAuth && !isAuth then NavDecision.redirectLogin
  else if dest.path == "/login" && isAuth then NavDecision.redirectDashboard
  else NavDecision.proceed

/-! ## Theorems -/

/-- C1: for every rejection whose response status is 401, after the error
interceptor runs the token slot is empty (so the strict presence check is
false), exactly one navigation to the login path has been appended, and
every apiClient verb still rejects the call with the interceptor's
message instead of suppressing it. -/
theorem c1_unauthorized_handling (st : ClientState) (e : AxiosError)
    (r : ErrResponse) (hres : e.response = some r) (hst : r.status = 401) :
    (responseErrorInterceptor st e).finalState.token = none ∧
    isAuthenticated (responseErrorInterceptor st e).finalState.token = false ∧
    (responseErrorInterceptor st e).finalState.navigations
      = st.navigations ++ ["/login"] ∧
    (∀ v : Verb, (apiClientVerb Unit v st (Transport.rejected e)).2
      = Except.error (responseErrorInterceptor st e).errorMessage) := by
  simp [responseErrorInterceptor, hres, hst, removeItem, isAuthenticated, getItem,
    apiClientVerb, axiosDispatch]

/-- C1 witness: a concrete 401 rejection against a state holding a token. -/
theorem c1_unauthorized_handling_witness :
    (responseErrorInterceptor ⟨some "tok", []⟩ ⟨some ⟨401, none⟩, true, ""⟩).finalState.token
      = none ∧
    isAuthenticated
      (responseErrorInterceptor ⟨some "tok", []⟩ ⟨some ⟨401, none⟩, true, ""⟩).finalState.token
      = false ∧
    (responseErrorInterceptor ⟨some "tok", []⟩ ⟨some ⟨401, none⟩, true, ""⟩).finalState.navigations
      = [] ++ ["/login"] ∧
    (∀ v : Verb,
      (apiClientVerb Unit v ⟨some "tok", []⟩
          (Transport.rejected ⟨some ⟨401, none⟩, true, ""⟩)).2
        = Except.error
            (responseErrorInterceptor ⟨some "tok", []⟩
              ⟨some ⟨401, none⟩, true, ""⟩).errorMessage) :=
  c1_unauthorized_handling ⟨some "tok", []⟩ ⟨some ⟨401, none⟩, true, ""⟩
    ⟨401, none⟩ rfl rfl

/-- C5: whatever the outcome of the logout endpoint call (resolution,
server error rejection, or network rejection), the finally block removes
the token, so the slot is empty and the presence check is false after
logout completes. -/
theorem c5_logout_clears (st : ClientState) (t : Transport Unit) :
    (logout st t).1.token = none ∧
    isAuthenticated (logout st t).1.token = false := by
  cases t <;>
    simp [logout, apiClientVerb, axiosDispatch, removeItem, isAuthenticated, getItem]

/-- C9: the error interceptor leaves the token slot unchanged on every
failure that is not a 401 response: other status codes, a missing
response (network failure), and pre-dispatch errors. -/
theorem c9_non_401_preserves_token (st : ClientState) (e : AxiosError)
    (h : ∀ r : ErrResponse, e.response = some r → r.status ≠ 401) :
    (responseErrorInterceptor st e).finalState.token = st.token ∧
    (responseErrorInterceptor st e).finalState.navigations = st.navigations := by
  match he : e.response with
  | none =>
      by_cases hr : e.request <;> simp [responseErrorInterceptor, he, hr]
  | some r =>
      have h401 : r.status ≠ 401 := h r he
      by_cases h400 : r.status = 400 <;>
        by_cases h403 : r.status = 403 <;>
          by_cases h404 : r.status = 404 <;>
            by_cases h500 : r.status = 500 <;>
              simp [responseErrorInterceptor, he, h400, h401, h403, h404, h500]

/-- C9 witness: a concrete 403 rejection with a stored credential. -/
theorem c9_non_401_preserves_token_witness :
    (responseErrorInterceptor ⟨some "tok", []⟩
        ⟨some ⟨403, some "forbidden"⟩, true, ""⟩).finalState.token = some "tok" ∧
    (responseErrorInterceptor ⟨some "tok", []⟩
        ⟨some ⟨403, some "forbidden"⟩, true, ""⟩).finalState.navigations = [] :=
  c9_non_401_preserves_token ⟨some "tok", []⟩ ⟨some ⟨403, some "forbidden"⟩, true, ""⟩
    (fun r hr => by cases hr; decide)

/-- C10: with the empty string stored in the token slot the three presence
checks disagree: isAuthenticated (strict null comparison) says true, the
request interceptor attaches no Authorization header, and the guard's
truthiness test says false, so a requires-auth navigation is redirected
to login. -/
theorem c10_empty_credential_disagreement :
    isAuthenticated (some "") = true ∧
    (outgoingHeaders Verb.get (some "")).authorization = none ∧
    strTruthy (getItem (some "")) = false ∧
    beforeEach (some "") ⟨true, "/dashboard"⟩ = NavDecision.redirectLogin := by
  refine ⟨by decide, by decide, by decide, by decide⟩

/-- C6: the guard is a pure function of the token slot read at the time
of the navigation (never cached); a requires-auth target while the token
is not truthy is redirected to login, the login path while the token is
truthy is redirected to the dashboard, and every other navigation
proceeds unchanged. -/
theorem c6_navigation_guard (store : Option String) (dest : RouteTarget) :
    (dest.requiresAuth = true → strTruthy (getItem store) = false →
      beforeEach store dest = NavDecision.redirectLogin) ∧
    (dest.path = "/login" → strTruthy (getItem store) = true →
      beforeEach store dest = NavDecision.redirectDashboard) ∧
    ((dest.requiresAuth = true → strTruthy (getItem store) = true) →
      (dest.path = "/login" → strTruthy (getItem store) = false) →
      beforeEach store dest = NavDecision.proceed) := by
  refine ⟨fun hreq hauth => ?_, fun hpath hauth => ?_, fun h1 h2 => ?_⟩
  · simp [beforeEach, hreq, hauth]
  · simp [beforeEach, hpath, hauth]
  · by_cases hreq : dest.requiresAuth = true
    · have hauth := h1 hreq
      by_cases hpath : dest.path = "/login"
      · exact absurd (h2 hpath) (by simp [hauth])
      · simp [beforeEach, hauth, hpath]
    · have hreq' : dest.requiresAuth = false := by
        cases hdr : dest.requiresAuth
        · rfl
        · exact absurd hdr hreq
      by_cases hpath : dest.path = "/login"
      · have hauth := h2 hpath
        simp [beforeEach, hreq', hauth, hpath]
      · by_cases hauth : strTruthy (getItem store) = true <;>
          simp_all [beforeEach, hreq', hpath]

/-- C6 witness: all three branches at concrete stores and targets. -/
theorem c6_navigation_guard_witness :
    beforeEach none ⟨true, "/dashboard"⟩ = NavDecision.redirectLogin ∧
    beforeEach (some "tok") ⟨false, "/login"⟩ = NavDecision.redirectDashboard ∧
    beforeEach (some "tok") ⟨true, "/dashboard"⟩ = NavDecision.proceed :=
  ⟨(c6_navigation_guard none ⟨true, "/dashboard"⟩).1 rfl (by decide),
   (c6_navigation_guard (some "tok") ⟨false, "/login"⟩).2.1 rfl (by decide),
   (c6_navigation_guard (some "tok") ⟨true, "/dashboard"⟩).2.2
     (fun _ => by decide) (fun hp => by simp at hp)⟩

/-- C2 counterexample: the claim demands that any stored credential is
attached as a Bearer header, but storing the empty string leaves the
Authorization header absent (the interceptor tests truthiness, not
presence). -/
theorem c2_counterexample :
    ¬ (∀ (v : Verb) (store : Option String) (tok : String),
        getItem store = some tok →
        (outgoingHeaders v store).authorization = some ("Bearer " ++ tok)) := by
  intro h
  have h0 := h Verb.get (some "") "" rfl
  simp [outgoingHeaders, requestInterceptor, defaultHeaders, getItem] at h0

/-- C2 (amended): for every verb, a stored non-empty credential is
attached as a Bearer Authorization header, and when the slot is absent or
holds the empty string no Authorization header is attached. -/
theorem c2_bearer_header (v : Verb) (store : Option String) :
    (∀ tok : String, getItem store = some tok → tok ≠ "" →
      (outgoingHeaders v store).authorization = some ("Bearer " ++ tok)) ∧
    (getItem store = none ∨ getItem store = some "" →
      (outgoingHeaders v store).authorization = none) := by
  constructor
  · intro tok htok hne
    simp [outgoingHeaders, requestInterceptor, getItem] at htok ⊢
    simp [htok, hne, defaultHeaders]
  · intro habs
    cases habs with
    | inl h0 => simp [outgoingHeaders, requestInterceptor, getItem] at h0 ⊢
                simp [h0, defaultHeaders]
    | inr h0 => simp [outgoingHeaders, requestInterceptor, getItem] at h0 ⊢
                simp [h0, defaultHeaders]

/-- C2 witness: a non-empty stored credential gets the Bearer header and
an absent one gets none. -/
theorem c2_bearer_header_witness :
    (outgoingHeaders Verb.get (some "abc")).authorization
      = some ("Bearer " ++ "abc") ∧
    (outgoingHeaders Verb.post none).authorization = none :=
  ⟨(c2_bearer_header Verb.get (some "abc")).1 "abc" rfl (by decide),
   (c2_bearer_header Verb.post none).2 (Or.inl rfl)⟩

/-- C3 counterexample: the claim maps every 5xx status to the ServerError
branch, but a 502 rejection runs the default branch of the switch (the
generic bucket), not the ServerError case reserved for exactly 500. -/
theorem c3_counterexample :
    ¬ (∀ (st : ClientState) (e : AxiosError) (r : ErrResponse),
        e.response = some r → 500 ≤ r.status → r.status ≤ 599 →
        (responseErrorInterceptor st e).cause = Cause.ServerError) := by
  intro h
  have h0 := h ⟨none, []⟩ ⟨some ⟨502, none⟩, true, ""⟩ ⟨502, none⟩ rfl
    (by decide) (by decide)
  exact absurd h0 (by decide)

/-- C3 (amended): each failure runs exactly one branch: 400 BadRequest,
401 Unauthorized, 403 Forbidden, 404 NotFound, exactly 500 ServerError,
any other status (including 502, 503, ...) the generic default bucket;
a missing response with the request sent is NetworkError, an error raised
before dispatch is ConfigError carrying the error's own message; and the
failure always rejects to the caller with the interceptor's message. -/
theorem c3_cause_per_branch (st : ClientState) (e : AxiosError) :
    (∀ r : ErrResponse, e.response = some r →
      (responseErrorInterceptor st e).cause =
        (if r.status = 400 then Cause.BadRequest
         else if r.status = 401 then Cause.Unauthorized
         else if r.status = 403 then Cause.Forbidden
         else if r.status = 404 then Cause.NotFound
         else if r.status = 500 then Cause.ServerError
         else Cause.UnknownStatus)) ∧
    (e.response = none → e.request = true →
      (responseErrorInterceptor st e).cause = Cause.NetworkError) ∧
    (e.response = none → e.request = false →
      (responseErrorInterceptor st e).cause = Cause.ConfigError ∧
      (responseErrorInterceptor st e).errorMessage = e.message) ∧
    (∀ v : Verb, (apiClientVerb Unit v st (Transport.rejected e)).2
      = Except.error (responseErrorInterceptor st e).errorMessage) := by
  refine ⟨fun r hr => ?_, fun hr hq => ?_, fun hr hq => ?_, fun v => ?_⟩
  · by_cases h400 : r.status = 400 <;>
      by_cases h401 : r.status = 401 <;>
        by_cases h403 : r.status = 403 <;>
          by_cases h404 : r.status = 404 <;>
            by_cases h500 : r.status = 500 <;>
              simp_all [responseErrorInterceptor]
  · simp [responseErrorInterceptor, hr, hq]
  · simp [responseErrorInterceptor, hr, hq]
  · simp [apiClientVerb, axiosDispatch]

/-- C3 witness: concrete rejections exercising a status branch, the
network branch and the pre-dispatch branch. -/
theorem c3_cause_per_branch_witness :
    (responseErrorInterceptor ⟨none, []⟩ ⟨some ⟨404, none⟩, true, ""⟩).cause
      = (if (404 : Nat) = 400 then Cause.BadRequest
         else if (404 : Nat) = 401 then Cause.Unauthorized
         else if (404 : Nat) = 403 then Cause.Forbidden
         else if (404 : Nat) = 404 then Cause.NotFound
         else if (404 : Nat) = 500 then Cause.ServerError
         else Cause.UnknownStatus) ∧
    (responseErrorInterceptor ⟨none, []⟩ ⟨none, true, ""⟩).cause
      = Cause.NetworkError ∧
    (responseErrorInterceptor ⟨none, []⟩ ⟨none, false, "bad config"⟩).cause
      = Cause.ConfigError ∧
    (responseErrorInterceptor ⟨none, []⟩ ⟨none, false, "bad config"⟩).errorMessage
      = "bad config" :=
  ⟨(c3_cause_per_branch ⟨none, []⟩ ⟨some ⟨404, none⟩, true, ""⟩).1 ⟨404, none⟩ rfl,
   (c3_cause_per_branch ⟨none, []⟩ ⟨none, true, ""⟩).2.1 rfl rfl,
   ((c3_cause_per_branch ⟨none, []⟩ ⟨none, false, "bad config"⟩).2.2.1 rfl rfl).1,
   ((c3_cause_per_branch ⟨none, []⟩ ⟨none, false, "bad config"⟩).2.2.1 rfl rfl).2⟩

/-- C4 counterexample: a resolved login whose body lacks the token field
is returned as a success (no ConfigError is raised) with the envelope
unchanged; the only part of the claim that holds is that no credential is
stored. -/
theorem c4_counterexample :
    (login ⟨"admin", "123456"⟩ ⟨none, []⟩
        (Transport.resolved ⟨200, ⟨0, "ok", none⟩⟩)).2
      = Except.ok ⟨0, "ok", none⟩ ∧
    (login ⟨"admin", "123456"⟩ ⟨none, []⟩
        (Transport.resolved ⟨200, ⟨0, "ok", none⟩⟩)).1.token = none :=
  ⟨rfl, rfl⟩

/-- C4 (amended): when a resolved login body carries no truthy
access_token (payload absent, field absent, or empty string), login
resolves successfully with the envelope unchanged, stores no credential,
and leaves the client state exactly as it was; the missing token is
silently ignored rather than raised as a ConfigError. -/
theorem c4_missing_token_ignored (p : LoginRequest) (st : ClientState)
    (r : AxiosResponse (Option LoginData))
    (h : ∀ ld : LoginData, r.data.data = some ld →
      ld.access_token = none ∨ ld.access_token = some "") :
    (login p st (Transport.resolved r)).2 = Except.ok r.data ∧
    (login p st (Transport.resolved r)).1 = st := by
  match hd : r.data.data with
  | none =>
      simp [login, apiClientVerb, axiosDispatch, responseSuccessInterceptor, hd]
  | some ld =>
      match ht : ld.access_token with
      | none =>
          simp [login, apiClientVerb, axiosDispatch, responseSuccessInterceptor, hd, ht]
      | some tok =>
          have : tok = "" := by
            rcases h ld hd with h0 | h0
            · exact absurd (ht ▸ h0) (by simp)
            · exact Option.some_injective _ (ht ▸ h0).symm ▸ rfl
          subst this
          simp [login, apiClientVerb, axiosDispatch, responseSuccessInterceptor, hd, ht]

/-- C4 witness: a concrete login response whose payload is present but
whose access_token field is absent. -/
theorem c4_missing_token_ignored_witness :
    (login ⟨"admin", "123456"⟩ ⟨none, []⟩
        (Transport.resolved ⟨200, ⟨0, "ok", some ⟨none, "bearer", 3600⟩⟩⟩)).2
      = Except.ok ⟨0, "ok", some ⟨none, "bearer", 3600⟩⟩ ∧
    (login ⟨"admin", "123456"⟩ ⟨none, []⟩
        (Transport.resolved ⟨200, ⟨0, "ok", some ⟨none, "bearer", 3600⟩⟩⟩)).1
      = ⟨none, []⟩ :=
  c4_missing_token_ignored ⟨"admin", "123456"⟩ ⟨none, []⟩
    ⟨200, ⟨0, "ok", some ⟨none, "bearer", 3600⟩⟩⟩
    (fun ld hld => by cases hld; exact Or.inl rfl)

/-- C7 counterexample: a 2xx resolution whose body carries a non-zero
code is handed to the caller as a successful result (the whole envelope),
not as an error. -/
theorem c7_counterexample :
    (⟨1, "app failure", ()⟩ : BaseResponse Unit).code ≠ 0 ∧
    (apiClientVerb Unit Verb.get ⟨some "tok", []⟩
        (Transport.resolved ⟨200, ⟨1, "app failure", ()⟩⟩)).2
      = Except.ok ⟨1, "app failure", ()⟩ :=
  ⟨by decide, rfl⟩

/-- C7 (amended): on any transport resolution the client resolves with
the envelope even when its code field is non-zero; no Normalized Error is
produced for application-level failures, so discriminating on the code
field is left entirely to the caller. -/
theorem c7_nonzero_code_resolves (T : Type) (v : Verb) (st : ClientState)
    (r : AxiosResponse T) (_hcode : r.data.code ≠ 0) :
    (apiClientVerb T v st (Transport.resolved r)).2 = Except.ok r.data := by
  simp [apiClientVerb, axiosDispatch, responseSuccessInterceptor]

/-- C7 witness: the amended statement at a concrete non-zero-code body. -/
theorem c7_nonzero_code_resolves_witness :
    (apiClientVerb Unit Verb.post ⟨none, []⟩
        (Transport.resolved ⟨200, ⟨7, "err", ()⟩⟩)).2
      = Except.ok ⟨7, "err", ()⟩ :=
  c7_nonzero_code_resolves Unit Verb.post ⟨none, []⟩ ⟨200, ⟨7, "err", ()⟩⟩ (by decide)

/-- C8 counterexample: if the caller received only the unwrapped payload,
two resolutions agreeing on the payload would be indistinguishable to the
caller; they are not, because the code and msg fields of the envelope
reach the caller too. -/
theorem c8_counterexample :
    ¬ (∀ b1 b2 : BaseResponse Int, b1.data = b2.data →
        (apiClientVerb Int Verb.get ⟨none, []⟩ (Transport.resolved ⟨200, b1⟩)).2
          = (apiClientVerb Int Verb.get ⟨none, []⟩ (Transport.resolved ⟨200, b2⟩)).2) := by
  intro h
  have h0 := h ⟨0, "ok", 42⟩ ⟨1, "err", 42⟩ rfl
  simp [apiClientVerb, axiosDispatch, responseSuccessInterceptor] at h0

/-- C8 (amended): on any 2xx resolution every verb returns response.data,
the full uniform envelope with its code, msg and data fields, to the
caller without re-wrapping, and leaves the client state unchanged; the
envelope is not further unwrapped to its payload. -/
theorem c8_returns_envelope (T : Type) (v : Verb) (st : ClientState)
    (r : AxiosResponse T) :
    (apiClientVerb T v st (Transport.resolved r)).2 = Except.ok r.data ∧
    (apiClientVerb T v st (Transport.resolved r)).1 = st := by
  constructor <;> rfl

end FastapiCloud
